/-
Verification of the cloudflare-speedtest-exporter sources (src/exporter.py,
src/utils.py) against its natural-language specification.

The development shallowly embeds the two Python modules: pure functions become
Lean functions, the mutable dataclass / registry state becomes explicit state
passing, Python exceptions become an `Except PyError` result, and the side
effects of a call (socket probe, subprocess invocation, logging, printing) are
collected in an explicit effect trace.  Python floats are modelled as rationals
and Python ints as integers, which is exact on the decimal literals exchanged
here.
-/
import Mathlib

set_option autoImplicit false

/-! ## Python value semantics -/

/-- Model of the Python built-in `int()` applied to a number: truncation toward
zero, i.e. floor for nonnegative arguments and ceiling for negative ones. -/
def pyInt (q : ℚ) : ℤ :=
  if 0 ≤ q then ⌊q⌋ else ⌈q⌉

/-- JSON values, the possible results of Python's `json.loads`. -/
inductive Json where
  | obj (entries : List (String × Json))
  | arr (items : List Json)
  | str (s : String)
  | num (q : ℚ)
  | bool (b : Bool)
  | null

/-- Exceptions that the embedded fragment of the exporter can raise. -/
inductive PyError where
  | jsonDecodeError (doc : String)
  | keyError (key : String)
  | typeError
  deriving DecidableEq

/-! ### A model of `json.loads`

The exporter treats JSON parsing as an externally supplied capability (the
Python standard library).  The model below parses the JSON fragment the
exporter exchanges with the speed-test CLI: objects, arrays, strings with the
common escapes, integer and decimal numbers, booleans and null.  Inputs
outside this fragment (for example exponent-notation numbers or unicode
escapes) are rejected, which is sound for every theorem below: each theorem
is conditioned on, or instantiated at, a concrete parse outcome. -/

/-- Drop leading JSON whitespace. -/
def skipWs (cs : List Char) : List Char :=
  match cs with
  | [] => []
  | c :: rest =>
    if c = ' ' ∨ c = '\n' ∨ c = '\t' ∨ c = '\r' then skipWs rest else cs

/-- Translate a JSON string escape character. -/
def escChar (e : Char) : Option Char :=
  if e = 'n' then some '\n'
  else if e = 't' then some '\t'
  else if e = 'r' then some '\r'
  else if e = '"' ∨ e = '\\' ∨ e = '/' then some e
  else none

/-- Parse the remainder of a JSON string after the opening quote, returning the
string contents and the unconsumed input. -/
def parseStringChars : List Char → Option (List Char × List Char)
  | [] => none
  | '"' :: cs => some ([], cs)
  | '\\' :: e :: cs =>
    match escChar e with
    | some d => (parseStringChars cs).map (fun p => (d :: p.1, p.2))
    | none => none
  | '\\' :: [] => none
  | c :: cs => (parseStringChars cs).map (fun p => (c :: p.1, p.2))

/-- Numeric value of a list of decimal digits. -/
def digitsVal (ds : List Char) : ℕ :=
  ds.foldl (fun a c => a * 10 + (c.toNat - 48)) 0

/-- Parse an unsigned JSON number (integer or decimal).  The value is
assembled with natural-number arithmetic and a single `mkRat`, so that
concrete parses reduce definitionally. -/
def parseUnsignedNumber (cs : List Char) : Option (ℚ × List Char) :=
  let (ds, cs2) := cs.span (fun c => c.isDigit)
  if ds.isEmpty then none
  else
    match cs2 with
    | '.' :: cs3 =>
      let (fs, cs4) := cs3.span (fun c => c.isDigit)
      if fs.isEmpty then none
      else
        some (mkRat (digitsVal ds * 10 ^ fs.length + digitsVal fs)
          (10 ^ fs.length), cs4)
    | _ => some (mkRat (digitsVal ds) 1, cs2)

/-- Parse a JSON number, optionally negated. -/
def parseNumber (cs : List Char) : Option (ℚ × List Char) :=
  match cs with
  | '-' :: rest => (parseUnsignedNumber rest).map (fun p => (-p.1, p.2))
  | _ => parseUnsignedNumber cs

mutual

/-- Parse one JSON value; `fuel` bounds the recursion depth. -/
def parseValue : ℕ → List Char → Option (Json × List Char)
  | 0, _ => none
  | Nat.succ fuel, cs =>
    match skipWs cs with
    | '"' :: rest => (parseStringChars rest).map (fun p => (Json.str ⟨p.1⟩, p.2))
    | '\x7b' :: rest => parseObjBody fuel (skipWs rest)
    | '[' :: rest => parseArrBody fuel (skipWs rest)
    | 't' :: 'r' :: 'u' :: 'e' :: rest => some (Json.bool true, rest)
    | 'f' :: 'a' :: 'l' :: 's' :: 'e' :: rest => some (Json.bool false, rest)
    | 'n' :: 'u' :: 'l' :: 'l' :: rest => some (Json.null, rest)
    | other => (parseNumber other).map (fun p => (Json.num p.1, p.2))

/-- Parse the inside of a JSON object, after the opening brace. -/
def parseObjBody : ℕ → List Char → Option (Json × List Char)
  | 0, _ => none
  | Nat.succ fuel, cs =>
    match cs with
    | '\x7d' :: rest => some (Json.obj [], rest)
    | _ =>
      (parseMembers fuel cs).map (fun p => (Json.obj p.1, p.2))

/-- Parse one or more `"key": value` members, up to the closing brace. -/
def parseMembers : ℕ → List Char → Option (List (String × Json) × List Char)
  | 0, _ => none
  | Nat.succ fuel, cs =>
    match skipWs cs with
    | '"' :: rest =>
      match parseStringChars rest with
      | none => none
      | some (key, r1) =>
        match skipWs r1 with
        | ':' :: r2 =>
          match parseValue fuel r2 with
          | none => none
          | some (v, r3) =>
            match skipWs r3 with
            | ',' :: r4 =>
              (parseMembers fuel r4).map (fun p => ((⟨key⟩, v) :: p.1, p.2))
            | '\x7d' :: r4 => some ([(⟨key⟩, v)], r4)
            | _ => none
        | _ => none
    | _ => none

/-- Parse the inside of a JSON array, after the opening bracket. -/
def parseArrBody : ℕ → List Char → Option (Json × List Char)
  | 0, _ => none
  | Nat.succ fuel, cs =>
    match cs with
    | ']' :: rest => some (Json.arr [], rest)
    | _ => (parseElems fuel cs).map (fun p => (Json.arr p.1, p.2))

/-- Parse one or more array elements, up to the closing bracket. -/
def parseElems : ℕ → List Char → Option (List Json × List Char)
  | 0, _ => none
  | Nat.succ fuel, cs =>
    match parseValue fuel cs with
    | none => none
    | some (v, r1) =>
      match skipWs r1 with
      | ',' :: r2 => (parseElems fuel r2).map (fun p => (v :: p.1, p.2))
      | ']' :: r2 => some ([v], r2)
      | _ => none

end

/-- Model of Python `json.loads`: parse a complete JSON document, rejecting
trailing garbage.  Returns `none` where `json.loads` raises `JSONDecodeError`. -/
def json_loads (s : String) : Option Json :=
  match parseValue (2 * s.length + 4) s.toList with
  | some (j, rest) => if (skipWs rest).isEmpty then some j else none
  | none => none

/-- Decide whether `pat` occurs as a contiguous run inside `s`. -/
def infixOf (pat : List Char) : List Char → Bool
  | [] => pat.isEmpty
  | c :: tail => pat.isPrefixOf (c :: tail) || infixOf pat tail

/-- Model of the Python membership test `key in data` on a parsed JSON value:
key lookup on a dict, substring test on a string, element test on a list, and
a `TypeError` on the non-container values. -/
def pyIn (key : String) : Json → Except PyError Bool
  | .obj kvs => .ok (kvs.any (fun kv => kv.1 == key))
  | .str s => .ok (infixOf key.toList s.toList)
  | .arr xs =>
    .ok (xs.any (fun x => match x with
      | .str t => t == key
      | _ => false))
  | _ => .error .typeError

/-- Model of the Python subscript `data[key]` with a string key on a parsed
JSON value: dict lookup (`KeyError` when absent; a duplicate key keeps the
last binding, as `json.loads` does), `TypeError` on every other value. -/
def pyGet (j : Json) (key : String) : Except PyError Json :=
  match j with
  | .obj kvs =>
    match kvs.reverse.lookup key with
    | some v => .ok v
    | none => .error (.keyError key)
  | _ => .error .typeError

/-- Model of Python `str()` on a parsed JSON value, as handed to `print`.
Only the string case is relied on by the theorems below; the textual form of
the non-string values is not modelled precisely. -/
def pyStr : Json → String
  | .str s => s
  | .bool true => "True"
  | .bool false => "False"
  | .null => "None"
  | .num q => toString q
  | .arr _ => "[...]"
  | .obj _ => "\x7b...\x7d"

/-! ## src/utils.py -/

namespace Utils

/-- Conversion from Mbit/s to bit/s, from `utils.megabits_to_bits`:
`int(megabits * (10**6))`, i.e. Python truncation of the product. -/
def megabits_to_bits (megabits : ℚ) : ℤ :=
  pyInt (megabits * 10 ^ 6)

/-- Result of a speedtest, from `utils.TestResult` (a NamedTuple).  The field
defaults are the canonical null result, used on every error path. -/
structure TestResult where
  server_city : String := ""
  server_region : String := ""
  ping : ℚ := 0
  jitter : ℚ := 0
  download_mbps : ℚ := 0
  download_bps : ℤ := 0
  upload_mbps : ℚ := 0
  upload_bps : ℤ := 0
  status : ℤ := 0
  deriving DecidableEq

/-- The null result: `utils.TestResult()` constructed with no attributes. -/
def nullResult : TestResult := {}

/-- Prometheus metrics state, from `utils.Metrics.__init__`: one slot per
gauge, the `speedtest_server` info labels, and the cache timestamp.  A fresh
gauge reads 0, a fresh info slot has empty labels, and `cache_until` starts at
`datetime.fromtimestamp(0)`, modelled as instant 0. -/
structure Metrics where
  server_city : String := ""
  server_region : String := ""
  ping : ℚ := 0
  jitter : ℚ := 0
  download_speed : ℚ := 0
  upload_speed : ℚ := 0
  up : ℚ := 0
  cache_until : ℤ := 0
  cache_secs : ℤ := 0
  deriving DecidableEq

/-- Cache expiry check, from `utils.Metrics.expired`:
`datetime.datetime.now() > self.cache_until`, with the current instant passed
explicitly. -/
def Metrics.expired (now : ℤ) (m : Metrics) : Bool :=
  now > m.cache_until

/-- Metrics update, from `utils.Metrics.update`: overwrite the info labels and
every gauge from the result's fields, then set the cache timestamp to
`datetime.datetime.now() + self.cache_secs`, with the current instant passed
explicitly. -/
def Metrics.update (now : ℤ) (m : Metrics) (result : TestResult) : Metrics :=
  { server_city := result.server_city
    server_region := result.server_region
    jitter := result.jitter
    ping := result.ping
    download_speed := (result.download_bps : ℚ)
    upload_speed := (result.upload_bps : ℚ)
    up := (result.status : ℚ)
    cache_until := now + m.cache_secs
    cache_secs := m.cache_secs }

/-- Modelled from the spec: `is_json`, which `exporter.py` imports from
`utils` but which is absent from the provided sources.  Per the spec's
MalformedOutput classification ("captured output is not parseable as JSON"),
it reports whether the text parses as JSON. -/
def is_json (s : String) : Bool :=
  (json_loads s).isSome

end Utils

/-! ## src/exporter.py -/

namespace Exporter

/-- Result of a speed test, from the `exporter.TestResult` dataclass.  All
fields default to the null result; `run_test` mutates them in place, modelled
below by returning the updated record. -/
structure TestResult where
  server_city : String := ""
  server_region : String := ""
  ping : ℚ := 0
  jitter : ℚ := 0
  download_mbps : ℚ := 0
  download : ℚ := 0
  upload_mbps : ℚ := 0
  upload : ℚ := 0
  status : ℤ := 0
  deriving DecidableEq

/-- Observable side effects of one exporter operation, in order of
occurrence: the socket connectivity probe, the `subprocess.check_output`
invocation of the speed-test CLI, `logging.error` / `logging.info` calls, and
`print` calls. -/
inductive Effect where
  | connectAttempt
  | subprocessCall
  | logError (msg : String)
  | logInfoResult (result : TestResult)
  | printOut (msg : String)
  deriving DecidableEq

/-- Outcome of the `subprocess.check_output` call on the speed-test CLI, as
seen by `_execute_speedtest`: normal termination with captured stdout
(decoded), a `CalledProcessError` carrying the captured output, or a
`TimeoutExpired`. -/
inductive SubprocOutcome where
  | ok (stdout : String)
  | calledProcessError (output : String)
  | timeoutExpired
  deriving DecidableEq

/-- Environment of one external measurement: whether the socket probe of
speed.cloudflare.com succeeds, and what the subprocess invocation would
yield. -/
structure Env where
  connectionOk : Bool
  subproc : SubprocOutcome
  deriving DecidableEq

/-- Python `s.rsplit(c, 1)[0]` for a one-character separator: everything
before the last occurrence of `c`, or all of `s` when `c` does not occur. -/
def rsplitHead (c : Char) : List Char → List Char
  | [] => []
  | a :: rest =>
    if c ∈ rest then a :: rsplitHead c rest
    else if a = c then []
    else a :: rest

/-- The output post-processing in `_execute_speedtest`:
`output.decode().rsplit('\x7d', 1)[0] + "\x7d"`. -/
def truncateAtLastBrace (s : String) : String :=
  ⟨rsplitHead '\x7d' s.toList ++ ['\x7d']⟩

/-- From `TestResult._execute_speedtest`: probe the network socket (returning
`None` with an error log on failure), then invoke the CLI once and classify
the outcome.  On success the decoded stdout is truncated at its last brace;
on a `CalledProcessError` a non-JSON non-empty captured output is logged; on
a timeout an error is logged.  The returned effects record the probe, the
subprocess call, and the log entries. -/
def execute_speedtest (env : Env) : List Effect × Option String :=
  if env.connectionOk then
    match env.subproc with
    | .ok stdout =>
      ([.connectAttempt, .subprocessCall], some (truncateAtLastBrace stdout))
    | .calledProcessError output =>
      if ¬ Utils.is_json output ∧ output.length > 0 then
        ([.connectAttempt, .subprocessCall,
          .logError "CFSpeedtest CLI Error occurred that was not in JSON format"],
         none)
      else
        ([.connectAttempt, .subprocessCall], none)
    | .timeoutExpired =>
      ([.connectAttempt, .subprocessCall,
        .logError "CFSpeedtest CLI process took too long to complete and was killed."],
       none)
  else
    ([.connectAttempt,
      .logError "No internet connection. Please check your network settings."],
     none)

/-- Lookup of `data[key]['value']`, the field-access pattern of
`_parse_results`. -/
def getValue (data : Json) (key : String) : Except PyError Json :=
  match pyGet data key with
  | .error e => .error e
  | .ok inner => pyGet inner "value"

/-- Coerce an extracted JSON value to the string the schema promises for the
location fields (spec section on the external collaborator). -/
def asStr : Json → Except PyError String
  | .str s => .ok s
  | _ => .error .typeError

/-- Coerce an extracted JSON value to the number the schema promises for the
latency and rate fields (spec section on the external collaborator). -/
def asNum : Json → Except PyError ℚ
  | .num q => .ok q
  | _ => .error .typeError

/-- Field extraction of `_parse_results` in source order: city, region,
latency, jitter, 90th-percentile download and upload rates. -/
def extractFields (data : Json) :
    Except PyError (String × String × ℚ × ℚ × ℚ × ℚ) := do
  let city ← getValue data "test_location_city" >>= asStr
  let region ← getValue data "test_location_region" >>= asStr
  let ping ← getValue data "latency_ms" >>= asNum
  let jitter ← getValue data "Jitter_ms" >>= asNum
  let download ← getValue data "90th_percentile_download_speed" >>= asNum
  let upload ← getValue data "90th_percentile_upload_speed" >>= asNum
  return (city, region, ping, jitter, download, upload)

/-- From `TestResult._parse_results`: `json.loads` the output (raising
`JSONDecodeError` on failure), print-and-return on an `"error"` key, silently
return without a `"version"` key, and otherwise populate every field and set
`status = 1`.  The effect list records the `print` calls of the error
branch. -/
def TestResult.parse_results (self : TestResult) (output : String) :
    List Effect × Except PyError TestResult :=
  match json_loads output with
  | none => ([], .error (.jsonDecodeError output))
  | some data =>
    match pyIn "error" data with
    | .error e => ([], .error e)
    | .ok true =>
      match pyGet data "error" with
      | .error e => ([.printOut "Something went wrong"], .error e)
      | .ok v =>
        ([.printOut "Something went wrong", .printOut (pyStr v)], .ok self)
    | .ok false =>
      match pyIn "version" data with
      | .error e => ([], .error e)
      | .ok false => ([], .ok self)
      | .ok true =>
        match extractFields data with
        | .error e => ([], .error e)
        | .ok (city, region, ping, jitter, download, upload) =>
          ([], .ok { self with
            server_city := city
            server_region := region
            ping := ping
            jitter := jitter
            download_mbps := download
            download := (Utils.megabits_to_bits download : ℚ)
            upload_mbps := upload
            upload := (Utils.megabits_to_bits upload : ℚ)
            status := 1 })

/-- From `TestResult.run_test`: execute the speed test and, when it captured a
(truthy, i.e. non-empty) output, parse it into the result's fields. -/
def TestResult.run_test (env : Env) (self : TestResult) :
    List Effect × Except PyError TestResult :=
  let (effs, output?) := execute_speedtest env
  match output? with
  | none => (effs, .ok self)
  | some output =>
    if output = "" then (effs, .ok self)
    else
      let (effs2, r) := self.parse_results output
      (effs ++ effs2, r)

/-- Cache state of the `exporter.SpeedTest` class: the configured cache
duration (`SPEEDTEST_CACHE_FOR`, default 0) and the expiry instant
(initially `datetime.fromtimestamp(0)`, modelled as instant 0). -/
structure SpeedTest where
  cache_seconds : ℤ := 0
  cache_until : ℤ := 0
  deriving DecidableEq

/-- From `SpeedTest.update_cache`: set `cache_until` to
`datetime.datetime.now() + timedelta(seconds=self.cache_seconds)`, with the
current instant passed explicitly. -/
def SpeedTest.update_cache (now : ℤ) (st : SpeedTest) : SpeedTest :=
  { st with cache_until := now + st.cache_seconds }

/-- From `SpeedTest.is_cache_expired`:
`datetime.datetime.now() > self.cache_until`. -/
def SpeedTest.is_cache_expired (now : ℤ) (st : SpeedTest) : Bool :=
  now > st.cache_until

/-- From `SpeedTest.run_speedtest`: when the cache has expired, construct a
fresh `TestResult`, run the test, log the result at info level, refresh the
cache and return the result; otherwise return `None`.  `now₁` is the instant
of the expiry check, `now₂` that of the cache refresh.  When `run_test`
raises, the exception propagates before the log and the cache refresh. -/
def SpeedTest.run_speedtest (st : SpeedTest) (now₁ now₂ : ℤ) (env : Env) :
    List Effect × Except PyError (SpeedTest × Option TestResult) :=
  if st.is_cache_expired now₁ then
    let (effs, r) := TestResult.run_test env {}
    match r with
    | .error e => (effs, .error e)
    | .ok result =>
      (effs ++ [.logInfoResult result],
       .ok (st.update_cache now₂, some result))
  else
    ([], .ok (st, none))

/-- Gauge state of the `exporter.Metrics` class: one slot per gauge plus the
`speedtest_server` info labels.  A fresh gauge reads 0 and a fresh info slot
has empty labels. -/
structure Metrics where
  server_city : String := ""
  server_region : String := ""
  jitter : ℚ := 0
  ping : ℚ := 0
  download_speed : ℚ := 0
  upload_speed : ℚ := 0
  up : ℚ := 0
  deriving DecidableEq

/-- From `Metrics.update_metrics`: overwrite the info labels and every gauge
slot from the result's fields. -/
def Metrics.update_metrics (m : Metrics) (result : TestResult) : Metrics :=
  { m with
    server_city := result.server_city
    server_region := result.server_region
    jitter := result.jitter
    ping := result.ping
    download_speed := result.download
    upload_speed := result.upload
    up := (result.status : ℚ) }

/-- The module-level mutable state of `exporter.py`: the `speedtest` and
`metrics` instances shared by every request. -/
structure AppState where
  speedtest : SpeedTest := {}
  metrics : Metrics := {}
  deriving DecidableEq

/-- From the `/metrics` route handler `update_results`: run the cache-gated
speed test, update the gauges when a result was produced, and render the
registry (`make_wsgi_app`), modelled as the gauge snapshot served to the
scraper. -/
def update_results (s : AppState) (now₁ now₂ : ℤ) (env : Env) :
    List Effect × Except PyError (AppState × Metrics) :=
  match s.speedtest.run_speedtest now₁ now₂ env with
  | (effs, .error e) => (effs, .error e)
  | (effs, .ok (st', none)) =>
    (effs, .ok ({ s with speedtest := st' }, s.metrics))
  | (effs, .ok (st', some result)) =>
    let m' := s.metrics.update_metrics result
    (effs, .ok (⟨st', m'⟩, m'))

/-- Predicate picking out the subprocess invocation among the effects. -/
def isSubprocessCall : Effect → Bool
  | .subprocessCall => true
  | _ => false

/-- Predicate picking out the error-level log entries among the effects. -/
def isLogError : Effect → Bool
  | .logError _ => true
  | _ => false

end Exporter

/-! ## Concrete inputs used to instantiate the theorems -/

/-- Environment for a run whose subprocess reports a tool-level error. -/
def errEnv : Exporter.Env :=
  ⟨true, .ok "\x7b\"error\": \"socket failed\"\x7d"⟩

/-- A well-formed success document from the speed-test CLI. -/
def successStdout : String :=
  "\x7b\"version\": \"1.0\", " ++
  "\"test_location_city\": \x7b\"value\": \"L\"\x7d, " ++
  "\"test_location_region\": \x7b\"value\": \"E\"\x7d, " ++
  "\"latency_ms\": \x7b\"value\": 10.5\x7d, " ++
  "\"Jitter_ms\": \x7b\"value\": 2.5\x7d, " ++
  "\"90th_percentile_download_speed\": \x7b\"value\": 100.5\x7d, " ++
  "\"90th_percentile_upload_speed\": \x7b\"value\": 20.25\x7d\x7d"

/-- The JSON value `successStdout` parses to. -/
def successData : Json :=
  Json.obj [("version", Json.str "1.0"),
    ("test_location_city", Json.obj [("value", Json.str "L")]),
    ("test_location_region", Json.obj [("value", Json.str "E")]),
    ("latency_ms", Json.obj [("value", Json.num (mkRat 21 2))]),
    ("Jitter_ms", Json.obj [("value", Json.num (mkRat 5 2))]),
    ("90th_percentile_download_speed",
      Json.obj [("value", Json.num (mkRat 201 2))]),
    ("90th_percentile_upload_speed",
      Json.obj [("value", Json.num (mkRat 81 4))])]


/-! ## Helper lemmas -/

set_option maxRecDepth 20000

namespace Exporter

theorem parse_results_effects (self : TestResult) (output : String) :
    (self.parse_results output).1 = [] ∨
      (self.parse_results output).1 = [.printOut "Something went wrong"] ∨
      ∃ s, (self.parse_results output).1 =
        [.printOut "Something went wrong", .printOut s] := by
  unfold TestResult.parse_results
  repeat
    first
    | exact Or.inl rfl
    | exact Or.inr (Or.inl rfl)
    | exact Or.inr (Or.inr ⟨_, rfl⟩)
    | split

theorem parse_results_countP (self : TestResult) (output : String)
    (p : Effect → Bool) (hp : ∀ s, p (.printOut s) = false) :
    ((self.parse_results output).1.countP p) = 0 := by
  rcases parse_results_effects self output with h | h | ⟨s, h⟩ <;>
    simp [h, List.countP_cons, hp]

theorem run_test_countP (env : Env) (self : TestResult)
    (p : Effect → Bool) (hp : ∀ s, p (.printOut s) = false) :
    ((TestResult.run_test env self).1.countP p) =
      ((execute_speedtest env).1.countP p) := by
  unfold TestResult.run_test
  split
  next effs output? heq =>
    rw [heq]
    match output? with
    | none => rfl
    | some output =>
      by_cases hout : output = ""
      · subst hout
        rfl
      · show (List.countP p (if output = "" then (effs, Except.ok self) else
          match self.parse_results output with
          | (effs2, r) => (effs ++ effs2, r)).1) = List.countP p effs
        rw [if_neg hout]
        rcases hp2 : self.parse_results output with ⟨effs2, r2⟩
        have h0 := parse_results_countP self output p hp
        rw [hp2] at h0
        simp only at h0
        simp [List.countP_append, h0]

theorem execute_subprocess_count (env : Env) :
    ((execute_speedtest env).1.countP isSubprocessCall) =
      if env.connectionOk then 1 else 0 := by
  rcases env with ⟨conn, sub⟩
  rcases conn with _ | _
  · rfl
  · rcases sub with stdout | output | _
    · rfl
    · by_cases hc : ¬ Utils.is_json output = true ∧ output.length > 0
      · show (List.countP isSubprocessCall
          (if ¬ Utils.is_json output = true ∧ output.length > 0 then
            ([.connectAttempt, .subprocessCall,
              .logError "CFSpeedtest CLI Error occurred that was not in JSON format"],
             (none : Option String))
          else ([.connectAttempt, .subprocessCall], none)).1) = 1
        rw [if_pos hc]
        rfl
      · show (List.countP isSubprocessCall
          (if ¬ Utils.is_json output = true ∧ output.length > 0 then
            ([.connectAttempt, .subprocessCall,
              .logError "CFSpeedtest CLI Error occurred that was not in JSON format"],
             (none : Option String))
          else ([.connectAttempt, .subprocessCall], none)).1) = 1
        rw [if_neg hc]
        rfl
    · rfl

theorem run_test_subprocess_count (env : Env) (self : TestResult) :
    ((TestResult.run_test env self).1.countP isSubprocessCall) =
      if env.connectionOk then 1 else 0 := by
  rw [run_test_countP env self isSubprocessCall (fun _ => rfl)]
  exact execute_subprocess_count env

theorem parse_results_status (self : TestResult) (output : String)
    (effs : List Effect) (r : TestResult)
    (h : self.parse_results output = (effs, .ok r)) :
    r = self ∨ r.status = 1 := by
  unfold TestResult.parse_results at h
  split at h
  · simp at h
  · split at h
    · simp at h
    · split at h
      · simp at h
      · simp at h
        exact Or.inl h.2.symm
    · split at h
      · simp at h
      · simp at h
        exact Or.inl h.2.symm
      · split at h
        · simp at h
        · simp at h
          exact Or.inr (by rw [← h.2])

theorem run_test_status (env : Env) (effs : List Effect) (r : TestResult)
    (h : TestResult.run_test env {} = (effs, .ok r)) :
    r = {} ∨ r.status = 1 := by
  unfold TestResult.run_test at h
  split at h
  next effs0 output? heq =>
    match output?, h with
    | none, h =>
      simp at h
      exact Or.inl h.2.symm
    | some output, h =>
      by_cases hout : output = ""
      · subst hout
        simp at h
        exact Or.inl h.2.symm
      · rcases hp2 : ({} : TestResult).parse_results output with ⟨effs2, r2⟩
        simp only [hout] at h
        rw [hp2] at h
        simp at h
        rcases r2 with e | r2
        · simp at h
        · simp at h
          rcases parse_results_status {} output effs2 r2 hp2 with h1 | h1
          · exact Or.inl (h.2 ▸ h1)
          · exact Or.inr (h.2 ▸ h1)


theorem rsplitHead_of_not_mem (c : Char) (s : List Char) (h : c ∉ s) :
    rsplitHead c s = s := by
  induction s with
  | nil => rfl
  | cons a rest ih =>
    have hrest : c ∉ rest := fun hc => h (List.mem_cons_of_mem a hc)
    have ha : ¬ a = c := fun hc => h (hc ▸ List.mem_cons_self a rest)
    simp [rsplitHead, hrest, ha]

theorem rsplitHead_spec (c : Char) (s : List Char) (h : c ∈ s) :
    ∃ t, s = rsplitHead c s ++ c :: t ∧ c ∉ t := by
  induction s with
  | nil => cases h
  | cons a rest ih =>
    by_cases hrest : c ∈ rest
    · rcases ih hrest with ⟨t, ht, hnt⟩
      refine ⟨t, ?_, hnt⟩
      simp only [rsplitHead, hrest, if_true, List.cons_append]
      rw [← ht]
    · have ha : a = c := by
        rcases List.mem_cons.mp h with h1 | h1
        · exact h1.symm
        · exact absurd h1 hrest
      refine ⟨rest, ?_, hrest⟩
      simp [rsplitHead, hrest, ha]

theorem truncateAtLastBrace_ne_empty (s : String) :
    truncateAtLastBrace s ≠ "" := by
  unfold truncateAtLastBrace
  intro h
  have h2 : (rsplitHead '\x7d' s.toList ++ ['\x7d']) = ([] : List Char) :=
    congrArg String.data h
  simp at h2

end Exporter

/-! ## Claims -/

/-- C1: the claim states that for every outcome of the external speed-test
invocation, `run_test` returns normally with the result either populated or
null, and no exception propagates.  The code contradicts this: when the
subprocess succeeds but its captured output does not parse as JSON,
`_parse_results` calls `json.loads` outside any handler and the
`JSONDecodeError` propagates out of `run_test`.  This theorem evaluates the
model at the failing input: stdout "garbage" (truncated to a string that is
not JSON) makes `run_test` raise. -/
theorem c1_unparseable_output_raises :
    json_loads "garbage\x7d" = none ∧
    Exporter.TestResult.run_test ⟨true, .ok "garbage"⟩ {} =
      ([.connectAttempt, .subprocessCall],
       .error (.jsonDecodeError "garbage\x7d")) :=
  ⟨rfl, rfl⟩

/-- C2 counterexample: the claim states the external speed-test process is
invoked exactly once per `run_test` call, never zero times.  When the socket
connectivity pre-check fails, `_execute_speedtest` returns before
`subprocess.check_output`, so the subprocess is invoked zero times. -/
theorem c2_no_connection_zero_invocations :
    ((Exporter.TestResult.run_test ⟨false, .timeoutExpired⟩ {}).1.countP
        Exporter.isSubprocessCall) = 0 ∧
    ¬ ((Exporter.TestResult.run_test ⟨false, .timeoutExpired⟩ {}).1.countP
        Exporter.isSubprocessCall) = 1 :=
  ⟨rfl, by decide⟩

/-- C2 amended: `run_test` invokes the external speed-test process at most
once — exactly once when the connectivity pre-check succeeds and zero times
when it fails; in no case is there a retry. -/
theorem c2_at_most_one_invocation (env : Exporter.Env)
    (self : Exporter.TestResult) :
    ((Exporter.TestResult.run_test env self).1.countP
        Exporter.isSubprocessCall) =
      if env.connectionOk then 1 else 0 :=
  Exporter.run_test_subprocess_count env self

/-- C3 counterexample: the claim states that when the output parses as a JSON
object with an "error" key, `run_test` returns the null result and emits
exactly one error-level log entry.  On such an input the code does return the
null result but emits zero log entries: the error branch of `_parse_results`
uses `print`, not `logging.error`. -/
theorem c3_error_key_logs_nothing :
    json_loads
        (Exporter.truncateAtLastBrace "\x7b\"error\": \"socket failed\"\x7d") =
      some (Json.obj [("error", Json.str "socket failed")]) ∧
    pyIn "error" (Json.obj [("error", Json.str "socket failed")]) = .ok true ∧
    (Exporter.TestResult.run_test errEnv {}).2 = .ok {} ∧
    ((Exporter.TestResult.run_test errEnv {}).1.countP Exporter.isLogError)
      = 0 :=
  ⟨rfl, rfl, rfl, rfl⟩

/-- C3 amended: whenever the captured output parses as JSON containing an
"error" key, `run_test` returns the result unchanged (the null result when
starting from the defaults) and emits no log entry at all; instead it prints
two lines to standard output, the second carrying the tool-reported error
value. -/
theorem c3_error_key_prints_and_returns_null
    (env : Exporter.Env) (self : Exporter.TestResult) (stdout : String)
    (data v : Json)
    (hconn : env.connectionOk = true)
    (hsub : env.subproc = .ok stdout)
    (hparse : json_loads (Exporter.truncateAtLastBrace stdout) = some data)
    (herr : pyIn "error" data = .ok true)
    (hget : pyGet data "error" = .ok v) :
    Exporter.TestResult.run_test env self =
      ([.connectAttempt, .subprocessCall,
        .printOut "Something went wrong", .printOut (pyStr v)], .ok self) := by
  rcases env with ⟨conn, sub⟩
  simp only at hconn hsub
  subst hconn
  subst hsub
  have hpr : self.parse_results (Exporter.truncateAtLastBrace stdout) =
      ([.printOut "Something went wrong", .printOut (pyStr v)], .ok self) := by
    unfold Exporter.TestResult.parse_results
    rw [hparse]
    simp only [herr, hget]
  have hne := Exporter.truncateAtLastBrace_ne_empty stdout
  unfold Exporter.TestResult.run_test
  have hexe : Exporter.execute_speedtest ⟨true, .ok stdout⟩ =
      ([.connectAttempt, .subprocessCall],
       some (Exporter.truncateAtLastBrace stdout)) := rfl
  rw [hexe]
  simp only [hne, if_false, hpr]
  rfl

/-- Witness for the amended C3, at the concrete tool-reported error
`socket failed`. -/
theorem c3_error_key_prints_witness :
    Exporter.TestResult.run_test errEnv {} =
      ([.connectAttempt, .subprocessCall, .printOut "Something went wrong",
        .printOut "socket failed"], .ok {}) :=
  c3_error_key_prints_and_returns_null errEnv {}
    "\x7b\"error\": \"socket failed\"\x7d"
    (Json.obj [("error", Json.str "socket failed")]) (Json.str "socket failed")
    rfl rfl rfl rfl rfl

/-- C4: for every megabit value m ≥ 0, `megabits_to_bits m` equals
`⌊m * 1000000⌋` — the conversion truncates any fractional bit downward and
never rounds up; in particular 12.5 Mbit/s becomes 12500000 bit/s and
0.0000001 Mbit/s becomes 0 bit/s. -/
theorem c4_megabits_to_bits_floor :
    (∀ m : ℚ, 0 ≤ m → Utils.megabits_to_bits m = ⌊m * 1000000⌋) ∧
    Utils.megabits_to_bits (12.5 : ℚ) = 12500000 ∧
    Utils.megabits_to_bits (0.0000001 : ℚ) = 0 := by
  refine ⟨fun m hm => ?_, ?_, ?_⟩
  · unfold Utils.megabits_to_bits pyInt
    rw [if_pos (mul_nonneg hm (by norm_num))]
    norm_num
  · unfold Utils.megabits_to_bits pyInt
    rw [if_pos (by norm_num)]
    norm_num
  · unfold Utils.megabits_to_bits pyInt
    rw [if_pos (by norm_num)]
    norm_num

/-- Witness for C4 at the concrete megabit value 25/2 = 12.5. -/
theorem c4_megabits_to_bits_floor_witness :
    (0 : ℚ) ≤ mkRat 25 2 ∧
    Utils.megabits_to_bits (mkRat 25 2) = ⌊(mkRat 25 2 : ℚ) * 1000000⌋ :=
  ⟨by decide, c4_megabits_to_bits_floor.1 (mkRat 25 2) (by decide)⟩

/-- C5: for every result value, including the null result, the registry's
`update` operation overwrites every gauge slot from the result's fields and
sets the cache expiry timestamp to now plus the configured cache duration;
in particular after `update` with the null result the `speedtest_up` gauge
reads 0 regardless of any previously cached state. -/
theorem c5_update_overwrites_and_sets_cache :
    (∀ (now : ℤ) (m : Utils.Metrics) (result : Utils.TestResult),
      Utils.Metrics.update now m result =
        { server_city := result.server_city
          server_region := result.server_region
          jitter := result.jitter
          ping := result.ping
          download_speed := (result.download_bps : ℚ)
          upload_speed := (result.upload_bps : ℚ)
          up := (result.status : ℚ)
          cache_until := now + m.cache_secs
          cache_secs := m.cache_secs }) ∧
    (∀ (now : ℤ) (m : Utils.Metrics),
      (Utils.Metrics.update now m Utils.nullResult).up = 0) :=
  ⟨fun _ _ _ => rfl, fun _ _ => rfl⟩

/-- C6: when the `/metrics` handler is called twice and the second call
occurs while the cache is still valid, the second call performs no external
invocation, changes no gauge slot and no cache timestamp, and renders the
same output as the first; the first call (a cache miss with a working
connection) performed exactly one external invocation, so the two calls
together perform exactly one. -/
theorem c6_cache_hit_idempotent
    (s : Exporter.AppState) (now₁ now₂ now₃ now₄ : ℤ)
    (env₁ env₂ : Exporter.Env) (effs₁ : List Exporter.Effect)
    (s₁ : Exporter.AppState) (out₁ : Exporter.Metrics)
    (hexp : s.speedtest.is_cache_expired now₁ = true)
    (hconn : env₁.connectionOk = true)
    (h₁ : Exporter.update_results s now₁ now₂ env₁ = (effs₁, .ok (s₁, out₁)))
    (hvalid : s₁.speedtest.is_cache_expired now₃ = false) :
    Exporter.update_results s₁ now₃ now₄ env₂ = ([], .ok (s₁, out₁)) ∧
    (effs₁.countP Exporter.isSubprocessCall) = 1 := by
  rcases hr : Exporter.TestResult.run_test env₁ {} with ⟨effs0, r0⟩
  rcases r0 with e | result
  · exfalso
    unfold Exporter.update_results Exporter.SpeedTest.run_speedtest at h₁
    rw [if_pos hexp, hr] at h₁
    simp at h₁
  · have hrs : s.speedtest.run_speedtest now₁ now₂ env₁ =
        (effs0 ++ [.logInfoResult result],
         .ok (s.speedtest.update_cache now₂, some result)) := by
      unfold Exporter.SpeedTest.run_speedtest
      rw [if_pos hexp, hr]
    unfold Exporter.update_results at h₁
    rw [hrs] at h₁
    simp at h₁
    obtain ⟨he, hs, ho⟩ := h₁
    have hcount : (effs₁.countP Exporter.isSubprocessCall) = 1 := by
      rw [← he]
      have h2 := Exporter.run_test_subprocess_count env₁ {}
      rw [hr, hconn] at h2
      simp at h2
      simp [List.countP_append, h2, Exporter.isSubprocessCall]
    have hrs2 : s₁.speedtest.run_speedtest now₃ now₄ env₂ =
        ([], .ok (s₁.speedtest, none)) := by
      unfold Exporter.SpeedTest.run_speedtest
      rw [if_neg (by rw [hvalid]; simp)]
    refine ⟨?_, hcount⟩
    have hout : s₁.metrics = out₁ := by rw [← hs, ← ho]
    have hsnd : Exporter.update_results s₁ now₃ now₄ env₂ =
        ([], .ok (s₁, s₁.metrics)) := by
      unfold Exporter.update_results
      rw [hrs2]
    rw [hsnd, hout]

/-- Witness for C6: an expired cache at instant 1, a timed-out measurement,
and a second call at the same instant that hits the still-valid cache. -/
theorem c6_cache_hit_idempotent_witness :
    Exporter.update_results
        ⟨⟨0, 1⟩,
         { server_city := "", server_region := "", jitter := 0, ping := 0,
           download_speed := 0, upload_speed := 0, up := ((0 : ℤ) : ℚ) }⟩
        1 1 ⟨true, .ok "ignored"⟩ =
      ([], .ok
        (⟨⟨0, 1⟩,
          { server_city := "", server_region := "", jitter := 0, ping := 0,
            download_speed := 0, upload_speed := 0, up := ((0 : ℤ) : ℚ) }⟩,
         { server_city := "", server_region := "", jitter := 0, ping := 0,
           download_speed := 0, upload_speed := 0, up := ((0 : ℤ) : ℚ) })) ∧
    ([Exporter.Effect.connectAttempt, Exporter.Effect.subprocessCall,
      Exporter.Effect.logError
        "CFSpeedtest CLI process took too long to complete and was killed.",
      Exporter.Effect.logInfoResult {}].countP Exporter.isSubprocessCall)
      = 1 :=
  c6_cache_hit_idempotent {} 1 1 1 1 ⟨true, .timeoutExpired⟩
    ⟨true, .ok "ignored"⟩
    [Exporter.Effect.connectAttempt, Exporter.Effect.subprocessCall,
     Exporter.Effect.logError
       "CFSpeedtest CLI process took too long to complete and was killed.",
     Exporter.Effect.logInfoResult {}]
    ⟨⟨0, 1⟩,
     { server_city := "", server_region := "", jitter := 0, ping := 0,
       download_speed := 0, upload_speed := 0, up := ((0 : ℤ) : ℚ) }⟩
    { server_city := "", server_region := "", jitter := 0, ping := 0,
      download_speed := 0, upload_speed := 0, up := ((0 : ℤ) : ℚ) }
    rfl rfl rfl rfl

/-- C7: every measurement result with status 0 that the Runner produces from
a fresh construction — and the fresh construction itself, in both source
variants — has all numeric fields at their zero default and both location
strings empty: the null sentinel is canonical and no partially populated
result carries status 0. -/
theorem c7_null_result_canonical :
    (({} : Exporter.TestResult).server_city = "" ∧
     ({} : Exporter.TestResult).server_region = "" ∧
     ({} : Exporter.TestResult).ping = 0 ∧
     ({} : Exporter.TestResult).jitter = 0 ∧
     ({} : Exporter.TestResult).download_mbps = 0 ∧
     ({} : Exporter.TestResult).download = 0 ∧
     ({} : Exporter.TestResult).upload_mbps = 0 ∧
     ({} : Exporter.TestResult).upload = 0 ∧
     ({} : Exporter.TestResult).status = 0) ∧
    (Utils.nullResult.server_city = "" ∧ Utils.nullResult.server_region = "" ∧
     Utils.nullResult.ping = 0 ∧ Utils.nullResult.jitter = 0 ∧
     Utils.nullResult.download_mbps = 0 ∧ Utils.nullResult.download_bps = 0 ∧
     Utils.nullResult.upload_mbps = 0 ∧ Utils.nullResult.upload_bps = 0 ∧
     Utils.nullResult.status = 0) ∧
    (∀ (env : Exporter.Env) (effs : List Exporter.Effect)
       (r : Exporter.TestResult),
      Exporter.TestResult.run_test env {} = (effs, .ok r) →
      r.status = 0 → r = {}) := by
  refine ⟨⟨rfl, rfl, rfl, rfl, rfl, rfl, rfl, rfl, rfl⟩,
    ⟨rfl, rfl, rfl, rfl, rfl, rfl, rfl, rfl, rfl⟩,
    fun env effs r h hs => ?_⟩
  rcases Exporter.run_test_status env effs r h with h1 | h1
  · exact h1
  · rw [h1] at hs
    exact absurd hs (by decide)

/-- Witness for C7 at a concrete failed run: the produced status-0 result is
the canonical null record. -/
theorem c7_null_result_canonical_witness :
    Exporter.TestResult.run_test ⟨false, .timeoutExpired⟩ {} =
      ([.connectAttempt,
        .logError "No internet connection. Please check your network settings."],
       .ok {}) ∧
    ({} : Exporter.TestResult) = {} :=
  ⟨rfl, c7_null_result_canonical.2.2 ⟨false, .timeoutExpired⟩
    [.connectAttempt,
     .logError "No internet connection. Please check your network settings."]
    {} rfl rfl⟩

/-- C8: when the subprocess output parses as JSON without an "error" key,
with a "version" key, and with all required field keys present (typed as the
schema promises), `run_test` produces a result with status 1, the city,
region, ping and jitter taken from the corresponding JSON fields, and the
download/upload bit-per-second fields equal to `megabits_to_bits` of the
extracted megabit rates. -/
theorem c8_success_populates
    (env : Exporter.Env) (self : Exporter.TestResult) (stdout : String)
    (data : Json) (city region : String) (ping jitter download upload : ℚ)
    (hconn : env.connectionOk = true)
    (hsub : env.subproc = .ok stdout)
    (hparse : json_loads (Exporter.truncateAtLastBrace stdout) = some data)
    (herr : pyIn "error" data = .ok false)
    (hver : pyIn "version" data = .ok true)
    (hcity : Exporter.getValue data "test_location_city" = .ok (.str city))
    (hregion : Exporter.getValue data "test_location_region" = .ok (.str region))
    (hping : Exporter.getValue data "latency_ms" = .ok (.num ping))
    (hjitter : Exporter.getValue data "Jitter_ms" = .ok (.num jitter))
    (hdl : Exporter.getValue data "90th_percentile_download_speed" =
      .ok (.num download))
    (hul : Exporter.getValue data "90th_percentile_upload_speed" =
      .ok (.num upload)) :
    Exporter.TestResult.run_test env self =
      ([.connectAttempt, .subprocessCall],
       .ok { self with
         server_city := city, server_region := region,
         ping := ping, jitter := jitter,
         download_mbps := download,
         download := (Utils.megabits_to_bits download : ℚ),
         upload_mbps := upload,
         upload := (Utils.megabits_to_bits upload : ℚ),
         status := 1 }) := by
  rcases env with ⟨conn, sub⟩
  simp only at hconn hsub
  subst hconn
  subst hsub
  have hex : Exporter.extractFields data =
      .ok (city, region, ping, jitter, download, upload) := by
    unfold Exporter.extractFields
    simp only [hcity, hregion, hping, hjitter, hdl, hul]
    rfl
  have hpr : self.parse_results (Exporter.truncateAtLastBrace stdout) =
      ([], .ok { self with
        server_city := city, server_region := region,
        ping := ping, jitter := jitter,
        download_mbps := download,
        download := (Utils.megabits_to_bits download : ℚ),
        upload_mbps := upload,
        upload := (Utils.megabits_to_bits upload : ℚ),
        status := 1 }) := by
    unfold Exporter.TestResult.parse_results
    rw [hparse]
    simp only [herr, hver, hex]
  have hne := Exporter.truncateAtLastBrace_ne_empty stdout
  unfold Exporter.TestResult.run_test
  have hexe : Exporter.execute_speedtest ⟨true, .ok stdout⟩ =
      ([.connectAttempt, .subprocessCall],
       some (Exporter.truncateAtLastBrace stdout)) := rfl
  rw [hexe]
  simp only [hne, if_false, hpr]
  rfl

/-- Witness for C8 at a complete, well-formed CLI document. -/
theorem c8_success_populates_witness :
    Exporter.TestResult.run_test ⟨true, .ok successStdout⟩ {} =
      ([.connectAttempt, .subprocessCall],
       .ok { server_city := "L", server_region := "E",
             ping := mkRat 21 2, jitter := mkRat 5 2,
             download_mbps := mkRat 201 2,
             download := (Utils.megabits_to_bits (mkRat 201 2) : ℚ),
             upload_mbps := mkRat 81 4,
             upload := (Utils.megabits_to_bits (mkRat 81 4) : ℚ),
             status := 1 }) :=
  c8_success_populates ⟨true, .ok successStdout⟩ {} successStdout successData
    "L" "E" (mkRat 21 2) (mkRat 5 2) (mkRat 201 2) (mkRat 81 4)
    rfl rfl rfl rfl rfl rfl rfl rfl rfl rfl rfl

/-- C9: under monotone clock readings and a nonnegative configured cache
duration, one pass of the cache-gated measurement either leaves the cache
expiry timestamp unchanged or strictly increases it, and any change happens
only on the cache-miss (measurement-update) path. -/
theorem c9_cache_until_monotone
    (st : Exporter.SpeedTest) (now₁ now₂ : ℤ) (env : Exporter.Env)
    (effs : List Exporter.Effect) (st' : Exporter.SpeedTest)
    (r : Option Exporter.TestResult)
    (hcs : 0 ≤ st.cache_seconds) (hmono : now₁ ≤ now₂)
    (h : st.run_speedtest now₁ now₂ env = (effs, .ok (st', r))) :
    (st'.cache_until = st.cache_until ∨ st.cache_until < st'.cache_until) ∧
    (st'.cache_until ≠ st.cache_until →
      st.is_cache_expired now₁ = true ∧ st.cache_until < st'.cache_until) := by
  unfold Exporter.SpeedTest.run_speedtest at h
  by_cases hexp : st.is_cache_expired now₁ = true
  · rw [if_pos hexp] at h
    rcases hr : Exporter.TestResult.run_test env {} with ⟨effs0, r0⟩
    rw [hr] at h
    rcases r0 with e | result
    · simp at h
    · simp at h
      have hgt : st.cache_until < now₁ :=
        of_decide_eq_true hexp
      have hst : st'.cache_until = now₂ + st.cache_seconds := by
        rw [← h.2.1]
        rfl
      refine ⟨Or.inr ?_, fun _ => ⟨hexp, ?_⟩⟩ <;>
        · rw [hst]; omega
  · rw [if_neg hexp] at h
    simp at h
    have hst : st' = st := h.2.1.symm
    refine ⟨Or.inl (by rw [hst]), fun hne => absurd (by rw [hst]) hne⟩

/-- Witness for C9 at a concrete expired cache: the timestamp strictly
increases from 0 to 1. -/
theorem c9_cache_until_monotone_witness :
    Exporter.SpeedTest.run_speedtest {} 1 1 ⟨false, .timeoutExpired⟩ =
      ([.connectAttempt,
        .logError "No internet connection. Please check your network settings.",
        .logInfoResult {}],
       .ok (⟨0, 1⟩, some {})) ∧
    ((⟨0, 1⟩ : Exporter.SpeedTest).cache_until =
        ({} : Exporter.SpeedTest).cache_until ∨
      ({} : Exporter.SpeedTest).cache_until <
        (⟨0, 1⟩ : Exporter.SpeedTest).cache_until) :=
  ⟨rfl, (c9_cache_until_monotone {} 1 1 ⟨false, .timeoutExpired⟩
    [.connectAttempt,
     .logError "No internet connection. Please check your network settings.",
     .logInfoResult {}]
    ⟨0, 1⟩ (some {}) (by decide) (by decide) rfl).1⟩

/-- C10: the Runner hands to the JSON parser exactly the decoded standard
output truncated at its last closing brace — everything after the final brace
is discarded, the handed text ends with that brace, and when the output
contains no closing brace at all the whole output with a single brace
appended is what gets parsed. -/
theorem c10_truncate_at_last_brace :
    (∀ (env : Exporter.Env) (stdout : String),
      env.connectionOk = true → env.subproc = .ok stdout →
      (Exporter.execute_speedtest env).2 =
        some (Exporter.truncateAtLastBrace stdout)) ∧
    (∀ s : String, '\x7d' ∉ s.toList →
      Exporter.truncateAtLastBrace s = s ++ "\x7d") ∧
    (∀ s : String, '\x7d' ∈ s.toList →
      ∃ t, s.toList = (Exporter.truncateAtLastBrace s).toList ++ t ∧
        '\x7d' ∉ t ∧
        (Exporter.truncateAtLastBrace s).toList.getLast? = some '\x7d') := by
  refine ⟨?_, ?_, ?_⟩
  · rintro ⟨conn, sub⟩ stdout hconn hsub
    simp only at hconn hsub
    subst hconn
    subst hsub
    rfl
  · intro s hs
    unfold Exporter.truncateAtLastBrace
    rw [Exporter.rsplitHead_of_not_mem '\x7d' s.toList hs]
    rfl
  · intro s hs
    rcases Exporter.rsplitHead_spec '\x7d' s.toList hs with ⟨t, ht, hnt⟩
    refine ⟨t, ?_, hnt, ?_⟩
    · conv_lhs => rw [ht]
      simp [Exporter.truncateAtLastBrace]
    · simp [Exporter.truncateAtLastBrace]

/-- Witness for C10 at an output with no closing brace. -/
theorem c10_truncate_at_last_brace_witness :
    '\x7d' ∉ "abc".toList ∧
    Exporter.truncateAtLastBrace "abc" = "abc" ++ "\x7d" :=
  ⟨by decide, c10_truncate_at_last_brace.2.1 "abc" (by decide)⟩
